import Mathlib

/-!
Verification of the QuickChat call-signaling core: a shallow embedding of
the client-side WebRTC call state machine (`client/context/WebRTCContext.jsx`)
and the server-side signaling relay (`server/server.js`).

Client state is modelled explicitly; each socket handler and UI action is a
pure function `ClientState → ClientState × List Effect`, where `Effect`
records socket emissions, resource releases (peer-connection close, media
track stop) and user-facing toasts, in the order the source performs them.
Fallible external operations (media acquisition, offer/answer creation) are
modelled by `Option` parameters supplying the operation's outcome.
-/

namespace QuickChat

/-- Call lifecycle status, mirroring the `callStatus` state values
`"idle" | "outgoing" | "incoming" | "connected"`. -/
inductive CallStatus where
  | idle
  | outgoing
  | incoming
  | connected
deriving Repr, DecidableEq

/-- Minimal profile snapshot of a user as used by the call core
(`participant._id`, `participant.fullName`). -/
structure UserInfo where
  uid : String
  fullName : String
deriving Repr, DecidableEq

/-- A session description (offer or answer).  `sdpId` identifies the
description; `iceRestart` records whether it was created with the
`iceRestart: true` option (a fresh ICE gathering cycle). -/
structure SDP where
  sdpId : Nat
  iceRestart : Bool
deriving Repr, DecidableEq

/-- The `callData` object.  In the source it has two dynamic shapes:
`{ to, isVideo }` for an outgoing call and
`{ offer, from, isVideo, callerInfo }` for an incoming one; optional fields
cover both. -/
structure CallData where
  toUser : Option UserInfo
  fromUser : Option String
  offer : Option SDP
  isVideo : Bool
  callerInfo : Option UserInfo
deriving Repr, DecidableEq

/-- The remote user id of a call, `callData?.to?._id || callData?.from`,
including the JS falsy check on the empty string. -/
def CallData.remoteUserId (d : CallData) : Option String :=
  match d.toUser with
  | some u => if u.uid = "" then d.fromUser else some u.uid
  | none => d.fromUser

/-- The `RTCPeerConnection` object as the call core observes it: local and
remote descriptions, the ICE candidates applied via `addIceCandidate`, and
the local tracks added via `addTrack`. -/
structure PeerConnection where
  localDesc : Option SDP
  remoteDesc : Option SDP
  appliedCandidates : List Nat
  tracks : List Nat
deriving Repr, DecidableEq

/-- The pending 30-second answer timeout (`callTimeoutRef`): the target user
id and display name captured by the `setTimeout` closure.  `none` means the
timer is not armed (or was cleared via `clearTimeout`). -/
structure TimerInfo where
  target : String
  targetName : String
deriving Repr, DecidableEq

/-- The provider's call-related state: React state plus the refs that carry
the live resources (`peerConnectionRef`, `localStreamRef`, `callTimeoutRef`).
A media stream is a list of track ids. -/
structure ClientState where
  callStatus : CallStatus
  callData : Option CallData
  localStream : Option (List Nat)
  remoteStream : Option (List Nat)
  isMuted : Bool
  isCameraOff : Bool
  peerConnection : Option PeerConnection
  callTimeout : Option TimerInfo
deriving Repr, DecidableEq

/-- Observable side effects of one handler run, in source order: socket
emissions, resource releases and toasts. -/
inductive Effect where
  | emitCallUser (toId : String) (offer : SDP) (isVideo : Bool)
  | emitMakeAnswer (toId : String) (answer : SDP)
  | emitIceCandidate (toId : String) (candidate : Nat)
  | emitRejectCall (toId : String)
  | emitEndCall (toId : String)
  | emitCallTimeout (toId : String)
  | emitRenegotiateCall (toId : String) (offer : SDP)
  | emitRenegotiateAnswer (toId : String) (answer : SDP)
  | closePC
  | stopTrack (track : Nat)
  | toast (message : String)
deriving Repr, DecidableEq

/-- `cleanupCall`: clears the answer timeout, closes the peer connection if
present, stops every track of the local stream if present, and resets all
call state to its idle defaults. -/
def cleanupCall (s : ClientState) : ClientState × List Effect :=
  let closeEffects : List Effect :=
    match s.peerConnection with
    | some _ => [Effect.closePC]
    | none => []
  let stopEffects : List Effect :=
    match s.localStream with
    | some tracks => tracks.map Effect.stopTrack
    | none => []
  (⟨CallStatus.idle, none, none, none, false, false, none, none⟩,
   closeEffects ++ stopEffects)

/-- `handleCallMade` (listener for `"call-made"`): stores the received call
data and sets status to `"incoming"`, with no condition on the current
status and no emission. -/
def handleCallMade (d : CallData) (s : ClientState) : ClientState × List Effect :=
  ({ s with callData := some d, callStatus := CallStatus.incoming }, [])

/-- `handleAnswerMade` (listener for `"answer-made"`): clears the answer
timeout, then, if a peer connection exists, applies the remote answer and
sets status to `"connected"`. -/
def handleAnswerMade (answer : SDP) (s : ClientState) : ClientState × List Effect :=
  let s1 := { s with callTimeout := none }
  match s1.peerConnection with
  | some pc =>
      ({ s1 with
          peerConnection := some { pc with remoteDesc := some answer },
          callStatus := CallStatus.connected }, [])
  | none => (s1, [])

/-- `handleIceCandidateReceived` (listener for `"ice-candidate-received"`):
applies the candidate via `addIceCandidate` when a peer connection exists;
otherwise the candidate is dropped. -/
def handleIceCandidateReceived (candidate : Nat) (s : ClientState) :
    ClientState × List Effect :=
  match s.peerConnection with
  | some pc =>
      ({ s with
          peerConnection :=
            some { pc with appliedCandidates := pc.appliedCandidates ++ [candidate] } },
       [])
  | none => (s, [])

/-- `handleMissedCall` (listener for `"call-missed"`): tears the call down
and surfaces a missed-call toast, defaulting the caller name to
`"Someone"`. -/
def handleMissedCall (callerName : Option String) (s : ClientState) :
    ClientState × List Effect :=
  let (s1, effects) := cleanupCall s
  (s1, effects ++ [Effect.toast ("Missed call from " ++ callerName.getD "Someone")])

/-- The listener registered for `"call-rejected"` is `cleanupCall` itself. -/
def handleCallRejected (s : ClientState) : ClientState × List Effect :=
  cleanupCall s

/-- The listener registered for `"call-ended"` is `cleanupCall` itself. -/
def handleCallEnded (s : ClientState) : ClientState × List Effect :=
  cleanupCall s

/-- `handleUserDisconnected` (listener for `"user-disconnected"`): tears the
call down when the disconnected user is the current remote party, with a
status-dependent toast. -/
def handleUserDisconnected (userId : String) (s : ClientState) :
    ClientState × List Effect :=
  match s.callStatus with
  | CallStatus.outgoing =>
      match s.callData with
      | some d =>
          match d.toUser with
          | some u =>
              if u.uid = userId then
                let (s1, effects) := cleanupCall s
                (s1, Effect.toast ("Call failed. " ++ u.fullName ++ " is unavailable.")
                      :: effects)
              else (s, [])
          | none => (s, [])
      | none => (s, [])
  | CallStatus.incoming =>
      match s.callData with
      | some d =>
          if d.fromUser = some userId then cleanupCall s else (s, [])
      | none => (s, [])
  | CallStatus.connected =>
      match s.callData with
      | some d =>
          if d.remoteUserId = some userId then
            let (s1, effects) := cleanupCall s
            (s1, Effect.toast "Call ended. The other user disconnected." :: effects)
          else (s, [])
      | none => (s, [])
  | CallStatus.idle => (s, [])

/-- The `setTimeout` continuation armed by `callUser`, with `clearTimeout`
semantics: when the timer is no longer armed the continuation never runs.
When armed, it emits `"call-timeout"` to the callee, surfaces a no-answer
toast, and tears the call down. -/
def fireCallTimeout (s : ClientState) : ClientState × List Effect :=
  match s.callTimeout with
  | some t =>
      let (s1, effects) := cleanupCall s
      (s1, Effect.emitCallTimeout t.target
            :: Effect.toast (t.targetName ++ " did not answer.") :: effects)
  | none => (s, [])

/-- `reconnectCall`: if a peer connection exists, creates a new offer with
`iceRestart: true` (outcome supplied as `offerResult`; `none` models the
promise rejecting), applies it locally, and emits `"renegotiate-call"` to
the remote user; any failure ends the call via `cleanupCall`. -/
def reconnectCall (offerResult : Option Nat) (s : ClientState) :
    ClientState × List Effect :=
  match s.peerConnection with
  | none => (s, [])
  | some pc =>
      match offerResult with
      | none => cleanupCall s
      | some offerId =>
          let offer : SDP := ⟨offerId, true⟩
          let s1 := { s with peerConnection := some { pc with localDesc := some offer } }
          match s1.callData with
          | some d =>
              match d.remoteUserId with
              | some r =>
                  if r = "" then (s1, [])
                  else (s1, [Effect.emitRenegotiateCall r offer])
              | none => (s1, [])
          | none => (s1, [])

/-- The `connectionState` values observed by `onconnectionstatechange`. -/
inductive ConnectionState where
  | newConn
  | connecting
  | connectedConn
  | disconnected
  | failed
  | closed
deriving Repr, DecidableEq

/-- `onconnectionstatechange`: reads the peer connection's state (absent
peer connection means no branch runs); on `"disconnected"` surfaces a toast
and attempts `reconnectCall`; on `"failed"` or `"closed"` runs
`cleanupCall`. -/
def handleConnectionStateChange (state : ConnectionState) (offerResult : Option Nat)
    (s : ClientState) : ClientState × List Effect :=
  match s.peerConnection with
  | none => (s, [])
  | some _ =>
      if state = ConnectionState.disconnected then
        let (s1, effects) := reconnectCall offerResult s
        (s1, Effect.toast "Connection lost. Attempting to reconnect..." :: effects)
      else if state = ConnectionState.failed ∨ state = ConnectionState.closed then
        cleanupCall s
      else (s, [])

/-- `handleRenegotiateCall` (listener for `"renegotiate-call"`): if a peer
connection exists, applies the renegotiation offer as remote description,
creates and applies an answer (outcome `answerId`), and emits
`"renegotiate-answer"` back to the sender. -/
def handleRenegotiateCall (fromId : String) (offer : SDP) (answerId : Nat)
    (s : ClientState) : ClientState × List Effect :=
  match s.peerConnection with
  | some pc =>
      let answer : SDP := ⟨answerId, false⟩
      ({ s with
          peerConnection :=
            some { pc with remoteDesc := some offer, localDesc := some answer } },
       [Effect.emitRenegotiateAnswer fromId answer])
  | none => (s, [])

/-- `handleRenegotiateAnswer` (listener for `"renegotiate-answer"`): if a
peer connection exists, applies the renegotiation answer as remote
description. -/
def handleRenegotiateAnswer (answer : SDP) (s : ClientState) :
    ClientState × List Effect :=
  match s.peerConnection with
  | some pc =>
      ({ s with peerConnection := some { pc with remoteDesc := some answer } }, [])
  | none => (s, [])

/-- `callUser(userIdToCall, isVideoCall)`: guards on a non-empty target that
is a participant of the selected conversation, tears down any previous call,
acquires media (`mediaResult`; `none` models `getUserMedia` failing), builds
a peer connection with the local tracks, creates and applies an offer
(`offerResult`), stores `{ to, isVideo }`, sets status `"outgoing"`, emits
`"call-user"` and arms the 30-second answer timeout; a negotiation failure
runs `cleanupCall`. -/
def callUser (participants : List UserInfo) (userIdToCall : String)
    (isVideoCall : Bool) (mediaResult : Option (List Nat)) (offerResult : Option Nat)
    (s : ClientState) : ClientState × List Effect :=
  if userIdToCall = "" then (s, [])
  else
    match participants.find? (fun p => p.uid = userIdToCall) with
    | none => (s, [])
    | some userToCall =>
        let (s1, cleanupEffects) := cleanupCall s
        match mediaResult with
        | none =>
            (s1, cleanupEffects ++ [Effect.toast "Could not access camera/microphone."])
        | some tracks =>
            let s2 := { s1 with
                localStream := some tracks,
                isCameraOff := !isVideoCall,
                isMuted := false }
            let pc : PeerConnection := ⟨none, none, [], tracks⟩
            let s3 := { s2 with peerConnection := some pc }
            match offerResult with
            | none =>
                let (s4, cleanupEffects2) := cleanupCall s3
                (s4, cleanupEffects ++ cleanupEffects2)
            | some offerId =>
                let offer : SDP := ⟨offerId, false⟩
                let s4 := { s3 with
                    peerConnection := some { pc with localDesc := some offer },
                    callData := some ⟨some userToCall, none, none, isVideoCall, none⟩,
                    callStatus := CallStatus.outgoing,
                    callTimeout := some ⟨userIdToCall, userToCall.fullName⟩ }
                (s4, cleanupEffects ++ [Effect.emitCallUser userIdToCall offer isVideoCall])

/-- `rejectCall`: emits `"reject-call"` to `callData.from` when present (and
truthy), then `cleanupCall`. -/
def rejectCall (s : ClientState) : ClientState × List Effect :=
  let rejectEffects : List Effect :=
    match s.callData with
    | some d =>
        match d.fromUser with
        | some f => if f = "" then [] else [Effect.emitRejectCall f]
        | none => []
    | none => []
  let (s1, cleanupEffects) := cleanupCall s
  (s1, rejectEffects ++ cleanupEffects)

/-- `answerCall`: guards on a stored offer; acquires media matching the
offer's modality (`mediaResult`), falling back to `rejectCall` on failure;
on success builds a peer connection with the local tracks, applies the
remote offer, creates and applies an answer (`answerResult`), sets status
`"connected"` and emits `"make-answer"`; a negotiation failure runs
`cleanupCall`. -/
def answerCall (mediaResult : Option (List Nat)) (answerResult : Option Nat)
    (s : ClientState) : ClientState × List Effect :=
  match s.callData with
  | none => (s, [])
  | some d =>
      match d.offer with
      | none => (s, [])
      | some offer =>
          match mediaResult with
          | none =>
              let (s1, rejectEffects) := rejectCall s
              (s1, Effect.toast "Could not access camera/microphone." :: rejectEffects)
          | some tracks =>
              let s2 := { s with
                  localStream := some tracks,
                  isCameraOff := !d.isVideo,
                  isMuted := false }
              let pc : PeerConnection := ⟨none, none, [], tracks⟩
              match answerResult with
              | none => cleanupCall { s2 with peerConnection := some pc }
              | some answerId =>
                  let answer : SDP := ⟨answerId, false⟩
                  ({ s2 with
                      peerConnection :=
                        some { pc with remoteDesc := some offer, localDesc := some answer },
                      callStatus := CallStatus.connected },
                   [Effect.emitMakeAnswer (d.fromUser.getD "") answer])

/-- `endCall`: emits `"end-call"` to the remote user id when present (and
truthy), then `cleanupCall`. -/
def endCall (s : ClientState) : ClientState × List Effect :=
  let endEffects : List Effect :=
    match s.callData with
    | some d =>
        match d.remoteUserId with
        | some r => if r = "" then [] else [Effect.emitEndCall r]
        | none => []
    | none => []
  let (s1, cleanupEffects) := cleanupCall s
  (s1, endEffects ++ cleanupEffects)

/-- `toggleMute`: flips the muted flag when a local stream exists (track
`enabled` flags are toggled in place; no state transition). -/
def toggleMute (s : ClientState) : ClientState × List Effect :=
  match s.localStream with
  | none => (s, [])
  | some _ => ({ s with isMuted := !s.isMuted }, [])

/-- `toggleCamera`: flips the camera-off flag when a local stream exists. -/
def toggleCamera (s : ClientState) : ClientState × List Effect :=
  match s.localStream with
  | none => (s, [])
  | some _ => ({ s with isCameraOff := !s.isCameraOff }, [])

/-! Server-side signaling relay (`server/server.js`).  `userSocketMap` is an
association list from user id to socket id; each `socket.on` handler is a
pure function of the map and the handler's inputs, returning the emissions
it performs.  The `userId` a handler closes over is the id supplied at
connection time by the socket that received the event. -/

/-- The `userSocketMap` object: user id → socket id. -/
abbrev UserSocketMap := List (String × Nat)

/-- Assignment `userSocketMap[u] = sid`, overwriting any prior entry. -/
def mapSet (m : UserSocketMap) (u : String) (sid : Nat) : UserSocketMap :=
  match m with
  | [] => [(u, sid)]
  | (k, v) :: rest => if k = u then (u, sid) :: rest else (k, v) :: mapSet rest u sid

/-- Lookup `userSocketMap[u]`. -/
def mapGet (m : UserSocketMap) (u : String) : Option Nat :=
  match m with
  | [] => none
  | (k, v) :: rest => if k = u then some v else mapGet rest u

/-- `delete userSocketMap[u]`. -/
def mapDelete (m : UserSocketMap) (u : String) : UserSocketMap :=
  match m with
  | [] => []
  | (k, v) :: rest => if k = u then mapDelete rest u else (k, v) :: mapDelete rest u

/-- The events a relay handler can emit to clients. -/
inductive ServerEvent where
  | callMade (fromId : String) (offer : SDP) (isVideo : Bool) (callerName : String)
  | answerMade (fromId : String) (answer : SDP)
  | iceCandidateReceived (fromId : String) (candidate : Nat)
  | callRejected
  | callEnded
  | callMissed (callerName : String)
  | userDisconnected (userId : String)
  | onlineUsers (users : List String)
  | renegotiateCallEvent (fromId : String) (offer : SDP)
  | renegotiateAnswerEvent (fromId : String) (answer : SDP)
deriving Repr, DecidableEq

/-- One relay emission: targeted at one socket, or broadcast to all. -/
inductive ServerEmit where
  | toSocket (sid : Nat) (event : ServerEvent)
  | broadcast (event : ServerEvent)
deriving Repr, DecidableEq

/-- The connection handler: ignores connections with no `userId` in the
handshake query; otherwise records `userSocketMap[userId] = socket.id` and
broadcasts the updated online-users list. -/
def serverConnection (m : UserSocketMap) (userId : String) (socketId : Nat) :
    UserSocketMap × List ServerEmit :=
  if userId = "" then (m, [])
  else
    let m1 := mapSet m userId socketId
    (m1, [ServerEmit.broadcast (ServerEvent.onlineUsers (m1.map Prod.fst))])

/-- Handler for `"call-user"`: looks up the callee's socket; when present,
fetches the caller's profile and emits `"call-made"` to the callee. -/
def serverCallUser (m : UserSocketMap) (senderUserId toId : String) (offer : SDP)
    (isVideo : Bool) (callerName : String) : List ServerEmit :=
  match mapGet m toId with
  | some sid =>
      [ServerEmit.toSocket sid (ServerEvent.callMade senderUserId offer isVideo callerName)]
  | none => []

/-- Handler for `"make-answer"`: forwards the answer to the target's socket
when registered. -/
def serverMakeAnswer (m : UserSocketMap) (senderUserId toId : String) (answer : SDP) :
    List ServerEmit :=
  match mapGet m toId with
  | some sid => [ServerEmit.toSocket sid (ServerEvent.answerMade senderUserId answer)]
  | none => []

/-- Handler for `"ice-candidate"`: forwards the candidate to the target's
socket when registered. -/
def serverIceCandidate (m : UserSocketMap) (senderUserId toId : String)
    (candidate : Nat) : List ServerEmit :=
  match mapGet m toId with
  | some sid =>
      [ServerEmit.toSocket sid (ServerEvent.iceCandidateReceived senderUserId candidate)]
  | none => []

/-- Handler for `"call-timeout"`: looks up the socket of the user named in
the envelope's `to` field; when registered, fetches the sender's display
name from the database (`callerLookup`; `none` models a missing user record,
defaulted to `"Someone"`) and emits `"call-missed"` to that socket. -/
def serverCallTimeout (m : UserSocketMap) (senderUserId toId : String)
    (callerLookup : Option String) : List ServerEmit :=
  match mapGet m toId with
  | some sid =>
      [ServerEmit.toSocket sid (ServerEvent.callMissed (callerLookup.getD "Someone"))]
  | none => []

/-- Handler for `"reject-call"`: emits a payload-free `"call-rejected"` to
the target's socket when registered.  The sender's identity (`senderUserId`,
the connection's user) is never consulted and never forwarded. -/
def serverRejectCall (m : UserSocketMap) (senderUserId toId : String) :
    List ServerEmit :=
  match mapGet m toId with
  | some sid => [ServerEmit.toSocket sid ServerEvent.callRejected]
  | none => []

/-- Handler for `"end-call"`: emits a payload-free `"call-ended"` to the
target's socket when registered; the sender's identity is never consulted. -/
def serverEndCall (m : UserSocketMap) (senderUserId toId : String) :
    List ServerEmit :=
  match mapGet m toId with
  | some sid => [ServerEmit.toSocket sid ServerEvent.callEnded]
  | none => []

/-- The `"disconnect"` handler of the connection registered for `userId`:
unconditionally deletes `userSocketMap[userId]`, broadcasts the updated
online-users list, and broadcasts `"user-disconnected"` naming `userId`.
The stored socket id is never compared with the disconnecting socket. -/
def serverDisconnect (m : UserSocketMap) (userId : String) :
    UserSocketMap × List ServerEmit :=
  let m1 := mapDelete m userId
  (m1, [ServerEmit.broadcast (ServerEvent.onlineUsers (m1.map Prod.fst)),
        ServerEmit.broadcast (ServerEvent.userDisconnected userId)])

/-! Helper lemmas shared across the claim theorems. -/

/-- The state produced by every `cleanupCall`: all call fields reset. -/
def cleanState : ClientState :=
  ⟨CallStatus.idle, none, none, none, false, false, none, none⟩

theorem cleanupCall_fst (s : ClientState) : (cleanupCall s).1 = cleanState := rfl

theorem cleanupCall_cleanState : cleanupCall cleanState = (cleanState, []) := rfl

theorem endCall_fst (s : ClientState) : (endCall s).1 = cleanState := rfl

theorem rejectCall_fst (s : ClientState) : (rejectCall s).1 = cleanState := rfl

theorem handleAnswerMade_callData (a : SDP) (s : ClientState) :
    (handleAnswerMade a s).1.callData = s.callData := by
  obtain ⟨st, cd, ls, rs, mu, co, pc, tm⟩ := s
  cases pc <;> rfl

theorem handleAnswerMade_callTimeout (a : SDP) (s : ClientState) :
    (handleAnswerMade a s).1.callTimeout = none := by
  obtain ⟨st, cd, ls, rs, mu, co, pc, tm⟩ := s
  cases pc <;> rfl

theorem handleIceCandidateReceived_callData (c : Nat) (s : ClientState) :
    (handleIceCandidateReceived c s).1.callData = s.callData := by
  obtain ⟨st, cd, ls, rs, mu, co, pc, tm⟩ := s
  cases pc <;> rfl

theorem handleRenegotiateCall_callData (f : String) (o : SDP) (aid : Nat)
    (s : ClientState) :
    (handleRenegotiateCall f o aid s).1.callData = s.callData := by
  obtain ⟨st, cd, ls, rs, mu, co, pc, tm⟩ := s
  cases pc <;> rfl

theorem handleRenegotiateAnswer_callData (a : SDP) (s : ClientState) :
    (handleRenegotiateAnswer a s).1.callData = s.callData := by
  obtain ⟨st, cd, ls, rs, mu, co, pc, tm⟩ := s
  cases pc <;> rfl

theorem handleUserDisconnected_cases (u : String) (s : ClientState) :
    handleUserDisconnected u s = (s, []) ∨
      (handleUserDisconnected u s).1 = cleanState := by
  obtain ⟨st, cd, ls, rs, mu, co, pc, tm⟩ := s
  rcases cd with _ | ⟨tu, fu, off, iv, ci⟩
  · cases st <;> simp [handleUserDisconnected]
  · rcases tu with _ | ⟨tid, tname⟩ <;> cases st <;>
      simp only [handleUserDisconnected, cleanupCall, cleanState,
        CallData.remoteUserId] <;>
      rcases fu with _ | f <;>
      (try split_ifs) <;> simp

theorem fireCallTimeout_cases (s : ClientState) :
    fireCallTimeout s = (s, []) ∨ (fireCallTimeout s).1 = cleanState := by
  obtain ⟨st, cd, ls, rs, mu, co, pc, tm⟩ := s
  cases tm
  · left; rfl
  · right; rfl

theorem fireCallTimeout_callTimeout_none (s : ClientState) :
    (fireCallTimeout s).1.callTimeout = none := by
  obtain ⟨st, cd, ls, rs, mu, co, pc, tm⟩ := s
  cases tm <;> rfl

theorem toggleMute_callData (s : ClientState) :
    (toggleMute s).1.callData = s.callData := by
  obtain ⟨st, cd, ls, rs, mu, co, pc, tm⟩ := s
  cases ls <;> rfl

theorem toggleCamera_callData (s : ClientState) :
    (toggleCamera s).1.callData = s.callData := by
  obtain ⟨st, cd, ls, rs, mu, co, pc, tm⟩ := s
  cases ls <;> rfl

theorem handleConnectionStateChange_callData (cs : ConnectionState)
    (orr : Option Nat) (s : ClientState) :
    (handleConnectionStateChange cs orr s).1.callData = s.callData ∨
      (handleConnectionStateChange cs orr s).1.callData = none := by
  obtain ⟨st, cd, ls, rs, mu, co, pc, tm⟩ := s
  rcases pc with _ | pc
  · left; rfl
  · by_cases hcs : cs = ConnectionState.disconnected
    · subst hcs
      rcases orr with _ | o
      · right
        simp [handleConnectionStateChange, reconnectCall, cleanupCall]
      · left
        rcases cd with _ | ⟨tu, fu, off, iv, ci⟩
        · rfl
        · simp only [handleConnectionStateChange, reconnectCall,
            CallData.remoteUserId]
          rcases tu with _ | ⟨tid, tname⟩ <;> rcases fu with _ | f <;>
            dsimp only <;> (try split_ifs) <;> (try simp_all) <;>
            (try split_ifs) <;> simp_all
    · by_cases hcs2 : cs = ConnectionState.failed ∨ cs = ConnectionState.closed
      · right
        simp [handleConnectionStateChange, hcs, hcs2, cleanupCall]
      · left
        simp [handleConnectionStateChange, hcs, hcs2]

theorem answerCall_callData (mr : Option (List Nat)) (ar : Option Nat)
    (s : ClientState) :
    (answerCall mr ar s).1.callData = s.callData ∨
      (answerCall mr ar s).1.callData = none := by
  obtain ⟨st, cd, ls, rs, mu, co, pc, tm⟩ := s
  rcases cd with _ | ⟨tu, fu, off, iv, ci⟩
  · left; rfl
  · rcases off with _ | o
    · left; rfl
    · rcases mr with _ | tracks
      · right
        simp [answerCall, rejectCall, cleanupCall]
      · rcases ar with _ | aid
        · right; simp [answerCall, cleanupCall]
        · left; simp [answerCall]

theorem mapGet_mapSet_self (m : UserSocketMap) (u : String) (sid : Nat) :
    mapGet (mapSet m u sid) u = some sid := by
  induction m with
  | nil => simp [mapSet, mapGet]
  | cons kv rest ih =>
      obtain ⟨k, v⟩ := kv
      by_cases h : k = u <;> simp [mapSet, mapGet, h, ih]

theorem mapGet_mapDelete_self (m : UserSocketMap) (u : String) :
    mapGet (mapDelete m u) u = none := by
  induction m with
  | nil => simp [mapDelete, mapGet]
  | cons kv rest ih =>
      obtain ⟨k, v⟩ := kv
      by_cases h : k = u <;> simp [mapDelete, mapGet, h, ih]

/-! Concrete fixtures used by counterexamples and witnesses. -/

/-- A participant profile used in concrete scenarios. -/
def bob : UserInfo := ⟨"bob", "Bob"⟩

/-- A connected video session with counterpart Bob. -/
def connectedWithBob : ClientState :=
  ⟨CallStatus.connected, some ⟨some bob, none, none, true, none⟩, some [1, 2],
   some [5], false, false, some ⟨some ⟨1, false⟩, some ⟨2, false⟩, [3], [1, 2]⟩, none⟩

/-- An outgoing video call to Bob with the 30-second answer timer armed. -/
def outgoingToBob : ClientState :=
  ⟨CallStatus.outgoing, some ⟨some bob, none, none, true, none⟩, some [1, 2],
   none, false, false, some ⟨some ⟨1, false⟩, none, [], [1, 2]⟩, some ⟨"bob", "Bob"⟩⟩

/-- A concurrent call-offer envelope from a third user, Carol. -/
def offerFromCarol : CallData :=
  ⟨none, some "carol", some ⟨9, false⟩, false, some ⟨"carol", "Carol"⟩⟩

/-- C1 (counterexample): in a connected session with Bob, receipt of a
call-offer from Carol emits nothing — in particular no call-reject — and
disturbs the session: the stored call data and the status both change. -/
theorem busy_offer_emits_no_reject_counterexample :
    connectedWithBob.callStatus ≠ CallStatus.idle ∧
    (handleCallMade offerFromCarol connectedWithBob).2 = [] ∧
    (handleCallMade offerFromCarol connectedWithBob).1.callData ≠
      connectedWithBob.callData ∧
    (handleCallMade offerFromCarol connectedWithBob).1.callStatus ≠
      connectedWithBob.callStatus := by
  decide

/-- C1 (amended): receipt of a call-offer envelope, whatever the local
session status, emits nothing (no call-reject) and replaces the session
data with the new offer, setting status to Incoming; the previous session's
timer, peer connection and local stream fields are left in place. -/
theorem busy_offer_overwrites_session (s : ClientState) (d : CallData) :
    (handleCallMade d s).2 = [] ∧
    (handleCallMade d s).1.callStatus = CallStatus.incoming ∧
    (handleCallMade d s).1.callData = some d ∧
    (handleCallMade d s).1.callTimeout = s.callTimeout ∧
    (handleCallMade d s).1.peerConnection = s.peerConnection ∧
    (handleCallMade d s).1.localStream = s.localStream :=
  ⟨rfl, rfl, rfl, rfl, rfl, rfl⟩

/-- C7 (counterexample): in an outgoing session whose counterpart is Bob,
receipt of a call-offer from Carol replaces the counterpart with Carol even
though the session never passes through Idle. -/
theorem offer_replaces_counterpart_counterexample :
    outgoingToBob.callStatus ≠ CallStatus.idle ∧
    (handleCallMade offerFromCarol outgoingToBob).1.callStatus ≠ CallStatus.idle ∧
    outgoingToBob.callData.map CallData.remoteUserId = some (some "bob") ∧
    (handleCallMade offerFromCarol outgoingToBob).1.callData.map
      CallData.remoteUserId = some (some "carol") := by
  decide

/-- C7 (amended): every received envelope other than a call-offer, and every
local action other than `callUser` (which restarts the session through a
teardown to Idle), either leaves the stored call data — hence the
counterpart — unchanged, or clears it by tearing the session down to Idle;
only receipt of a call-offer replaces the counterpart in place. -/
theorem counterpart_preserved_except_offer (s : ClientState) (a : SDP) (c : Nat)
    (n : Option String) (u fromId : String) (o : SDP) (aid : Nat)
    (cs : ConnectionState) (orr : Option Nat) (mr : Option (List Nat))
    (ar : Option Nat) :
    ((handleAnswerMade a s).1.callData = s.callData ∨
      (handleAnswerMade a s).1.callData = none) ∧
    ((handleIceCandidateReceived c s).1.callData = s.callData ∨
      (handleIceCandidateReceived c s).1.callData = none) ∧
    ((handleMissedCall n s).1.callData = s.callData ∨
      (handleMissedCall n s).1.callData = none) ∧
    ((handleUserDisconnected u s).1.callData = s.callData ∨
      (handleUserDisconnected u s).1.callData = none) ∧
    ((handleCallRejected s).1.callData = s.callData ∨
      (handleCallRejected s).1.callData = none) ∧
    ((handleCallEnded s).1.callData = s.callData ∨
      (handleCallEnded s).1.callData = none) ∧
    ((fireCallTimeout s).1.callData = s.callData ∨
      (fireCallTimeout s).1.callData = none) ∧
    ((handleRenegotiateCall fromId o aid s).1.callData = s.callData ∨
      (handleRenegotiateCall fromId o aid s).1.callData = none) ∧
    ((handleRenegotiateAnswer o s).1.callData = s.callData ∨
      (handleRenegotiateAnswer o s).1.callData = none) ∧
    ((handleConnectionStateChange cs orr s).1.callData = s.callData ∨
      (handleConnectionStateChange cs orr s).1.callData = none) ∧
    ((answerCall mr ar s).1.callData = s.callData ∨
      (answerCall mr ar s).1.callData = none) ∧
    ((rejectCall s).1.callData = s.callData ∨ (rejectCall s).1.callData = none) ∧
    ((endCall s).1.callData = s.callData ∨ (endCall s).1.callData = none) ∧
    ((toggleMute s).1.callData = s.callData ∨ (toggleMute s).1.callData = none) ∧
    ((toggleCamera s).1.callData = s.callData ∨
      (toggleCamera s).1.callData = none) := by
  refine ⟨Or.inl (handleAnswerMade_callData a s),
    Or.inl (handleIceCandidateReceived_callData c s),
    Or.inr rfl, ?_, Or.inr rfl, Or.inr rfl, ?_,
    Or.inl (handleRenegotiateCall_callData fromId o aid s),
    Or.inl (handleRenegotiateAnswer_callData o s),
    handleConnectionStateChange_callData cs orr s,
    answerCall_callData mr ar s,
    Or.inr rfl, Or.inr rfl,
    Or.inl (toggleMute_callData s), Or.inl (toggleCamera_callData s)⟩
  · rcases handleUserDisconnected_cases u s with h | h
    · rw [h]
      exact Or.inl rfl
    · rw [h]
      exact Or.inr rfl
  · rcases fireCallTimeout_cases s with h | h
    · rw [h]
      exact Or.inl rfl
    · rw [h]
      exact Or.inr rfl

/-- C3 (counterexample): with an outgoing call to Bob and the answer timer
armed, receipt of a call-offer from Carol moves the session out of Outgoing
(to Incoming) without cancelling the timer; the timer continuation then
fires with observable effects — it emits call-timeout to Bob and tears the
replacement session down to Idle. -/
theorem stale_timer_after_busy_offer_counterexample :
    outgoingToBob.callStatus = CallStatus.outgoing ∧
    outgoingToBob.callTimeout ≠ none ∧
    (handleCallMade offerFromCarol outgoingToBob).1.callStatus ≠
      CallStatus.outgoing ∧
    (handleCallMade offerFromCarol outgoingToBob).1.callTimeout ≠ none ∧
    (fireCallTimeout (handleCallMade offerFromCarol outgoingToBob).1).2 ≠ [] ∧
    Effect.emitCallTimeout "bob" ∈
      (fireCallTimeout (handleCallMade offerFromCarol outgoingToBob).1).2 ∧
    (fireCallTimeout (handleCallMade offerFromCarol outgoingToBob).1).1.callStatus
      = CallStatus.idle := by
  decide

/-- C3 (amended): for every transition out of Outgoing via answer receipt,
call-reject, call-end, a matching disconnect notice, explicit endCall or
rejectCall, or the timeout itself, the pending answer timer is cancelled,
and a timer continuation on a disarmed timer has no observable effect; a
call-offer received while Outgoing, however, moves the session to Incoming
with the timer still armed (see the counterexample). -/
theorem timer_disarm_on_listed_transitions (s : ClientState) (a : SDP)
    (u : String) :
    (handleAnswerMade a s).1.callTimeout = none ∧
    (handleCallRejected s).1.callTimeout = none ∧
    (handleCallEnded s).1.callTimeout = none ∧
    (endCall s).1.callTimeout = none ∧
    (rejectCall s).1.callTimeout = none ∧
    (handleUserDisconnected u s = (s, []) ∨
      (handleUserDisconnected u s).1.callTimeout = none) ∧
    (fireCallTimeout s).1.callTimeout = none ∧
    (s.callTimeout = none → fireCallTimeout s = (s, [])) := by
  refine ⟨handleAnswerMade_callTimeout a s, rfl, rfl, rfl, rfl, ?_,
    fireCallTimeout_callTimeout_none s, ?_⟩
  · rcases handleUserDisconnected_cases u s with h | h
    · exact Or.inl h
    · rw [h]
      exact Or.inr rfl
  · intro h
    obtain ⟨st, cd, ls, rs, mu, co, pc, tm⟩ := s
    simp only at h
    rw [show tm = none from h]
    rfl

/-- C3 witness: the amended theorem applied at the concrete outgoing state
and at the clean idle state, discharging the disarmed-timer hypothesis. -/
theorem timer_disarm_on_listed_transitions_witness :
    (handleAnswerMade ⟨3, false⟩ outgoingToBob).1.callTimeout = none ∧
    fireCallTimeout cleanState = (cleanState, []) :=
  ⟨(timer_disarm_on_listed_transitions outgoingToBob ⟨3, false⟩ "x").1,
   (timer_disarm_on_listed_transitions cleanState ⟨3, false⟩ "x").2.2.2.2.2.2.2 rfl⟩

/-- C2: on teardown with a live peer connection and a live local stream,
`cleanupCall` closes the transport exactly once and stops every local track,
ending with status Idle and no dangling handles; a second `cleanupCall`, a
second `endCall`, or a disconnect notice arriving after a call-ended event
performs no further close, stop, emission or notice. -/
theorem teardown_releases_resources_once (s : ClientState) (pc : PeerConnection)
    (tracks : List Nat) (u : String)
    (hpc : s.peerConnection = some pc) (hls : s.localStream = some tracks) :
    (cleanupCall s).2 = Effect.closePC :: tracks.map Effect.stopTrack ∧
    (cleanupCall s).2.count Effect.closePC = 1 ∧
    (∀ t ∈ tracks, Effect.stopTrack t ∈ (cleanupCall s).2) ∧
    (cleanupCall s).1.callStatus = CallStatus.idle ∧
    (cleanupCall s).1.peerConnection = none ∧
    (cleanupCall s).1.localStream = none ∧
    (cleanupCall (cleanupCall s).1).2 = [] ∧
    (endCall (endCall s).1).2 = [] ∧
    handleUserDisconnected u (handleCallEnded s).1 = ((handleCallEnded s).1, []) := by
  have heff : (cleanupCall s).2 = Effect.closePC :: tracks.map Effect.stopTrack := by
    simp [cleanupCall, hpc, hls]
  refine ⟨heff, ?_, ?_, rfl, rfl, rfl, rfl, rfl, rfl⟩
  · rw [heff]
    have hnot : Effect.closePC ∉ tracks.map Effect.stopTrack := by simp
    simp [List.count_cons, List.count_eq_zero.mpr hnot]
  · intro t ht
    rw [heff]
    exact List.mem_cons_of_mem _ (List.mem_map_of_mem _ ht)

/-- C2 witness: the teardown theorem applied at the concrete connected
session with Bob, which holds a peer connection and a two-track stream. -/
theorem teardown_releases_resources_once_witness :
    (cleanupCall connectedWithBob).2 =
      Effect.closePC :: [1, 2].map Effect.stopTrack ∧
    (endCall (endCall connectedWithBob).1).2 = [] :=
  ⟨(teardown_releases_resources_once connectedWithBob
      ⟨some ⟨1, false⟩, some ⟨2, false⟩, [3], [1, 2]⟩ [1, 2] "x" rfl rfl).1,
   (teardown_releases_resources_once connectedWithBob
      ⟨some ⟨1, false⟩, some ⟨2, false⟩, [3], [1, 2]⟩ [1, 2] "x" rfl rfl).2.2.2.2.2.2.2.1⟩

/-- An incoming call from Alice before `answerCall` has run: no peer
connection exists yet. -/
def incomingNoPC : ClientState :=
  ⟨CallStatus.incoming,
   some ⟨none, some "alice", some ⟨1, false⟩, false, some ⟨"alice", "Alice"⟩⟩,
   none, none, false, false, none, none⟩

/-- C5 (counterexample): while the callee is Incoming and has not yet
created its peer connection, a received ICE candidate is discarded — the
state is unchanged and nothing records the candidate — and the peer
connection created later by `answerCall` starts with an empty applied-candidate
list, so the dropped candidate is never applied. -/
theorem ice_candidate_dropped_counterexample :
    incomingNoPC.callStatus = CallStatus.incoming ∧
    incomingNoPC.peerConnection = none ∧
    handleIceCandidateReceived 7 incomingNoPC = (incomingNoPC, []) ∧
    (answerCall (some [10]) (some 2)
        (handleIceCandidateReceived 7 incomingNoPC).1).1.peerConnection =
      some ⟨some ⟨2, false⟩, some ⟨1, false⟩, [], [10]⟩ := by
  decide

/-- C5 (amended): an ICE candidate arriving while a peer connection exists
is applied to it immediately (ordering relative to the remote description is
left to the transport library's queuing); a candidate arriving before the
local endpoint has created its peer connection — in particular while status
is Incoming — is discarded, not buffered. -/
theorem ice_candidate_applied_or_dropped (s : ClientState) (pc : PeerConnection)
    (c : Nat) :
    (s.peerConnection = some pc →
      handleIceCandidateReceived c s =
        ({ s with peerConnection := some { pc with appliedCandidates := pc.appliedCandidates ++ [c] } },
          [])) ∧
    (s.peerConnection = none → handleIceCandidateReceived c s = (s, [])) := by
  constructor
  · intro h
    simp [handleIceCandidateReceived, h]
  · intro h
    simp [handleIceCandidateReceived, h]

/-- C5 witness: the candidate-handling theorem applied at the connected
session (candidate applied) and at the incoming-without-peer-connection
state (candidate dropped). -/
theorem ice_candidate_applied_or_dropped_witness :
    handleIceCandidateReceived 7 connectedWithBob =
      ({ connectedWithBob with peerConnection := some ⟨some ⟨1, false⟩, some ⟨2, false⟩, [3, 7], [1, 2]⟩ },
        []) ∧
    handleIceCandidateReceived 7 incomingNoPC = (incomingNoPC, []) :=
  ⟨(ice_candidate_applied_or_dropped connectedWithBob
      ⟨some ⟨1, false⟩, some ⟨2, false⟩, [3], [1, 2]⟩ 7).1 rfl,
   (ice_candidate_applied_or_dropped incomingNoPC
      ⟨none, none, [], []⟩ 7).2 rfl⟩

/-- C6: in a connected session with a live peer connection and a known
remote user, a transport `"disconnected"` report emits a renegotiate-offer
created with an ICE restart (a fresh gathering cycle) to the counterpart and
leaves the status Connected; a `"failed"` or `"closed"` report, or a
renegotiation attempt whose offer creation throws, tears the session fully
down to Idle, closing the transport. -/
theorem connection_state_change_behavior (s : ClientState) (pc : PeerConnection)
    (d : CallData) (r : String) (o : Nat) (orr : Option Nat)
    (hst : s.callStatus = CallStatus.connected)
    (hpc : s.peerConnection = some pc)
    (hcd : s.callData = some d)
    (hr : d.remoteUserId = some r)
    (hner : r ≠ "") :
    (handleConnectionStateChange ConnectionState.disconnected (some o) s).1.callStatus
        = CallStatus.connected ∧
    (handleConnectionStateChange ConnectionState.disconnected (some o) s).2 =
      [Effect.toast "Connection lost. Attempting to reconnect...",
       Effect.emitRenegotiateCall r ⟨o, true⟩] ∧
    (handleConnectionStateChange ConnectionState.failed orr s).1 = cleanState ∧
    Effect.closePC ∈ (handleConnectionStateChange ConnectionState.failed orr s).2 ∧
    (handleConnectionStateChange ConnectionState.closed orr s).1 = cleanState ∧
    (handleConnectionStateChange ConnectionState.disconnected none s).1 = cleanState ∧
    Effect.closePC ∈ (handleConnectionStateChange ConnectionState.disconnected none s).2 := by
  refine ⟨?_, ?_, ?_, ?_, ?_, ?_, ?_⟩ <;>
    simp [handleConnectionStateChange, reconnectCall, cleanupCall, cleanState,
      hst, hpc, hcd, hr, hner]

/-- C6 witness: the connectivity theorem applied at the concrete connected
session with Bob. -/
theorem connection_state_change_behavior_witness :
    (handleConnectionStateChange ConnectionState.disconnected (some 4)
        connectedWithBob).1.callStatus = CallStatus.connected ∧
    (handleConnectionStateChange ConnectionState.failed none
        connectedWithBob).1 = cleanState :=
  ⟨(connection_state_change_behavior connectedWithBob
      ⟨some ⟨1, false⟩, some ⟨2, false⟩, [3], [1, 2]⟩
      ⟨some bob, none, none, true, none⟩ "bob" 4 none
      rfl rfl rfl (by decide) (by decide)).1,
   (connection_state_change_behavior connectedWithBob
      ⟨some ⟨1, false⟩, some ⟨2, false⟩, [3], [1, 2]⟩
      ⟨some bob, none, none, true, none⟩ "bob" 4 none
      rfl rfl rfl (by decide) (by decide)).2.2.1⟩

/-- C8: when media acquisition fails, the caller's `callUser` — invoked from
a clean Idle state on a known participant — aborts with status Idle, no
peer connection and no emission of any envelope (only the failure toast);
the callee's `answerCall` behaves exactly as an explicit `rejectCall`
prefixed by the failure toast, emitting call-reject to the offer's
originator and ending at Idle. -/
theorem media_failure_aborts_or_rejects (ps : List UserInfo) (t : String)
    (u : UserInfo) (v : Bool) (orr ar : Option Nat) (s s' : ClientState)
    (d : CallData) (off : SDP) (f : String)
    (hfind : ps.find? (fun p => p.uid = t) = some u)
    (ht : t ≠ "")
    (hpc : s.peerConnection = none) (hls : s.localStream = none)
    (hcd : s'.callData = some d) (hoff : d.offer = some off)
    (hfrom : d.fromUser = some f) (hf : f ≠ "") :
    (callUser ps t v none orr s).1.callStatus = CallStatus.idle ∧
    (callUser ps t v none orr s).1.peerConnection = none ∧
    (callUser ps t v none orr s).2 =
      [Effect.toast "Could not access camera/microphone."] ∧
    answerCall none ar s' =
      ((rejectCall s').1,
        Effect.toast "Could not access camera/microphone." :: (rejectCall s').2) ∧
    Effect.emitRejectCall f ∈ (answerCall none ar s').2 ∧
    (answerCall none ar s').1.callStatus = CallStatus.idle := by
  have hcall : answerCall none ar s' =
      ((rejectCall s').1,
        Effect.toast "Could not access camera/microphone." :: (rejectCall s').2) := by
    simp [answerCall, hcd, hoff]
  refine ⟨?_, ?_, ?_, hcall, ?_, ?_⟩
  · simp [callUser, ht, hfind, cleanupCall]
  · simp [callUser, ht, hfind, cleanupCall]
  · simp [callUser, ht, hfind, cleanupCall, hpc, hls]
  · rw [hcall]
    simp [rejectCall, hcd, hfrom, hf]
  · rw [hcall]
    simp [rejectCall, cleanupCall]

/-- C8 witness: the media-failure theorem applied with Bob as the known
participant (caller side, from the clean state) and with the concrete
incoming call from Alice (callee side). -/
theorem media_failure_aborts_or_rejects_witness :
    (callUser [bob] "bob" true none none cleanState).2 =
      [Effect.toast "Could not access camera/microphone."] ∧
    Effect.emitRejectCall "alice" ∈ (answerCall none none incomingNoPC).2 :=
  ⟨(media_failure_aborts_or_rejects [bob] "bob" bob true none none cleanState
      incomingNoPC ⟨none, some "alice", some ⟨1, false⟩, false, some ⟨"alice", "Alice"⟩⟩
      ⟨1, false⟩ "alice" (by decide) (by decide) rfl rfl rfl rfl rfl
      (by decide)).2.2.1,
   (media_failure_aborts_or_rejects [bob] "bob" bob true none none cleanState
      incomingNoPC ⟨none, some "alice", some ⟨1, false⟩, false, some ⟨"alice", "Alice"⟩⟩
      ⟨1, false⟩ "alice" (by decide) (by decide) rfl rfl rfl rfl rfl
      (by decide)).2.2.2.2.1⟩

/-- A relay registration map with Alice on socket 1 and Bob on socket 2. -/
def relayMap : UserSocketMap := [("alice", 1), ("bob", 2)]

/-- C4 (counterexample): with Alice (socket 1) and Bob (socket 2)
registered, the call-timeout that Alice sends addressed to Bob makes the
relay deliver call-missed to Bob's socket — the callee — and nothing at all
to Alice, the original caller. -/
theorem missed_call_not_to_caller_counterexample :
    serverCallTimeout relayMap "alice" "bob" (some "Alice") =
      [ServerEmit.toSocket 2 (ServerEvent.callMissed "Alice")] ∧
    mapGet relayMap "alice" = some 1 ∧
    ∀ e ∈ serverCallTimeout relayMap "alice" "bob" (some "Alice"),
      e ≠ ServerEmit.toSocket 1 (ServerEvent.callMissed "Alice") := by
  decide

/-- C4 (amended): when the endpoint addressed by a call-timeout envelope is
registered, the relay delivers a call-missed envelope carrying the caller's
display name (defaulting to "Someone" when the caller's record is missing)
to that addressed endpoint — the callee — not to the original caller; the
recipient's handler clears its call state and surfaces a missed-call
toast. -/
theorem call_timeout_notice_to_callee (m : UserSocketMap)
    (sender toId name : String) (sid : Nat) (s : ClientState)
    (h : mapGet m toId = some sid) :
    serverCallTimeout m sender toId (some name) =
      [ServerEmit.toSocket sid (ServerEvent.callMissed name)] ∧
    serverCallTimeout m sender toId none =
      [ServerEmit.toSocket sid (ServerEvent.callMissed "Someone")] ∧
    (handleMissedCall (some name) s).1 = cleanState ∧
    Effect.toast ("Missed call from " ++ name) ∈ (handleMissedCall (some name) s).2 := by
  refine ⟨by simp [serverCallTimeout, h], by simp [serverCallTimeout, h], rfl, ?_⟩
  simp [handleMissedCall, cleanupCall]

/-- C4 witness: the amended theorem applied at the concrete relay map, with
Alice timing out a call to Bob. -/
theorem call_timeout_notice_to_callee_witness :
    serverCallTimeout relayMap "alice" "bob" (some "Alice") =
      [ServerEmit.toSocket 2 (ServerEvent.callMissed "Alice")] ∧
    (handleMissedCall (some "Alice") incomingNoPC).1 = cleanState :=
  ⟨(call_timeout_notice_to_callee relayMap "alice" "bob" "Alice" 2 incomingNoPC
      (by decide)).1,
   (call_timeout_notice_to_callee relayMap "alice" "bob" "Alice" 2 incomingNoPC
      (by decide)).2.2.1⟩

/-- C9: the relay forwards reject-call and end-call envelopes to any
registered target with no payload and independently of who sent them, and
the client listeners for call-rejected and call-ended are `cleanupCall`
itself: from any state — whatever the counterpart — they tear the session
down to the clean Idle state without examining a sender. -/
theorem reject_end_teardown_sender_agnostic (m : UserSocketMap)
    (x y victim : String) (sid : Nat) (s : ClientState)
    (h : mapGet m victim = some sid) :
    serverRejectCall m x victim =
      [ServerEmit.toSocket sid ServerEvent.callRejected] ∧
    serverEndCall m x victim = [ServerEmit.toSocket sid ServerEvent.callEnded] ∧
    serverRejectCall m x victim = serverRejectCall m y victim ∧
    serverEndCall m x victim = serverEndCall m y victim ∧
    handleCallRejected s = cleanupCall s ∧
    handleCallEnded s = cleanupCall s ∧
    (handleCallRejected s).1 = cleanState ∧
    (handleCallEnded s).1 = cleanState :=
  ⟨by simp [serverRejectCall, h], by simp [serverEndCall, h],
   rfl, rfl, rfl, rfl, rfl, rfl⟩

/-- C9 witness: the sender-agnostic teardown theorem applied at the concrete
relay map — a reject addressed to Bob from the unrelated sender "mallory" —
and at the connected session with Bob. -/
theorem reject_end_teardown_sender_agnostic_witness :
    serverRejectCall relayMap "mallory" "bob" =
      [ServerEmit.toSocket 2 ServerEvent.callRejected] ∧
    (handleCallRejected connectedWithBob).1 = cleanState :=
  ⟨(reject_end_teardown_sender_agnostic relayMap "mallory" "x" "bob" 2
      connectedWithBob (by decide)).1,
   (reject_end_teardown_sender_agnostic relayMap "mallory" "x" "bob" 2
      connectedWithBob (by decide)).2.2.2.2.2.2.1⟩

/-- C10: registration overwrites (last connection wins), and the disconnect
handler for a user deletes the user-to-socket mapping keyed by the user id
unconditionally — without comparing socket ids — and broadcasts a
user-disconnected notice: after an older connection for the user
disconnects, the newer registration is gone from the map and every endpoint
is told the user disconnected. -/
theorem disconnect_unregisters_and_broadcasts (m : UserSocketMap) (u : String)
    (s1 s2 : Nat) (hu : u ≠ "") :
    mapGet (serverConnection (serverConnection m u s1).1 u s2).1 u = some s2 ∧
    mapGet (serverDisconnect (serverConnection (serverConnection m u s1).1 u s2).1 u).1 u
      = none ∧
    ServerEmit.broadcast (ServerEvent.userDisconnected u) ∈
      (serverDisconnect (serverConnection (serverConnection m u s1).1 u s2).1 u).2 := by
  have hconn : ∀ (mm : UserSocketMap) (sid : Nat),
      (serverConnection mm u sid).1 = mapSet mm u sid := by
    intro mm sid
    simp [serverConnection, hu]
  refine ⟨?_, ?_, ?_⟩
  · rw [hconn, hconn, mapGet_mapSet_self]
  · rw [hconn, hconn]
    simpa [serverDisconnect] using
      mapGet_mapDelete_self (mapSet (mapSet m u s1) u s2) u
  · simp [serverDisconnect]

/-- C10 witness: the disconnect theorem applied with Alice registering
socket 1 and then socket 2 on an initially empty map. -/
theorem disconnect_unregisters_and_broadcasts_witness :
    mapGet (serverConnection (serverConnection [] "alice" 1).1 "alice" 2).1 "alice"
      = some 2 ∧
    mapGet (serverDisconnect (serverConnection (serverConnection [] "alice" 1).1
      "alice" 2).1 "alice").1 "alice" = none :=
  ⟨(disconnect_unregisters_and_broadcasts [] "alice" 1 2 (by decide)).1,
   (disconnect_unregisters_and_broadcasts [] "alice" 1 2 (by decide)).2.1⟩

end QuickChat
